/-
Verification of the `tk-flame` publish hook
(`hooks/tk-multi-publish2/create_version.py`).

The file gives a shallow embedding of the hook:

* Python values appearing in the item property bag and in the Version
  metadata dictionary are modelled by `Value`; dictionaries are ordered
  association lists (`List (String × Value)`), looked up like Python
  dicts (first matching key).
* Fallible Python operations (`float(..)`, `int(..)`, `re.search` on a
  non-string, attribute access on a non-dict) are modelled with
  `Except PyErr`; `PyErr` carries the Python exception class and message.
* The external collaborators that live in this repository outside the
  hook file (the engine job queue, the transcode service) and the
  Shotgun database client are modelled from the spec; each such
  definition carries a doc comment starting with `Modelled from the
  spec:`.  Their effects are recorded in an explicit `World` state
  (submitted jobs, created records) that every effectful function
  threads through.

Definitions keep the source names (`publish`, `finalize`,
`generate_quicktime`, `_upload_quicktime_job` is `upload_quicktime_job`).
-/
import Mathlib

set_option linter.unusedVariables false

/-- Python values stored in property bags, asset-info dictionaries and
Version metadata.  Floats are modelled as exact rationals (`float(..)`
of the numeric values exercised here is exact), entities (Shotgun
records) are opaque type/id pairs. -/
inductive Value where
  | none
  | int (n : Int)
  | float (q : Rat)
  | str (s : String)
  | entity (etype : String) (eid : Nat)
  | list (vs : List Value)
  | dict (fields : List (String × Value))

/-- Python exceptions raised by the modelled operations. -/
inductive PyErr where
  | typeError (msg : String)
  | valueError (msg : String)
  | attributeError (msg : String)
  deriving DecidableEq

/-- First match of a key in an association list, like a Python dict
lookup (our dictionaries never hold duplicate keys). -/
def lookup (d : List (String × Value)) (k : String) : Option Value :=
  (d.find? (fun p => p.1 == k)).map (fun p => p.2)

/-- Python `d.get(k, default)`. -/
def dictGet (d : List (String × Value)) (k : String) (dflt : Value) : Value :=
  match lookup d k with
  | some v => v
  | Option.none => dflt

/-- Python `d[k] = v`: replace the value in place when the key exists,
append a fresh entry otherwise. -/
def setKey (d : List (String × Value)) (k : String) (v : Value) : List (String × Value) :=
  if (lookup d k).isSome then
    d.map (fun p => if p.1 = k then (k, v) else p)
  else
    d ++ [(k, v)]

/-- Python truthiness of the modelled values.  An entity reference is a
non-empty dict in Python, hence truthy. -/
def truthy : Value → Bool
  | .none => false
  | .int n => decide (n ≠ 0)
  | .float q => decide (q ≠ 0)
  | .str s => !(s == "")
  | .entity _ _ => true
  | .list vs => !vs.isEmpty
  | .dict fields => !fields.isEmpty

/-- Python `float(v)`.  Numeric-string parsing is not modelled (the
hook only ever coerces the numeric `fps`/`aspectRatio` values, and no
claim supplies a string); a string argument is reported as the
`ValueError` Python raises for a non-numeric string. -/
def pyFloat : Value → Except PyErr Rat
  | .int n => .ok (n : Rat)
  | .float q => .ok q
  | .str _ => .error (.valueError "could not convert string to float")
  | .none => .error (.typeError "float() argument must be a string or a real number, not NoneType")
  | _ => .error (.typeError "float() argument must be a string or a real number")

/-- Python `int(v)` (truncation toward zero for floats; numeric-string
parsing not modelled, as for `pyFloat`). -/
def pyInt : Value → Except PyErr Int
  | .int n => .ok n
  | .float q => .ok (q.num.tdiv (q.den : Int))
  | .str _ => .error (.valueError "invalid literal for int() with base 10")
  | .none => .error (.typeError "int() argument must be a string, a bytes-like object or a real number, not NoneType")
  | _ => .error (.typeError "int() argument must be a string, a bytes-like object or a real number")

/-- Python `v - 1` for the modelled values. -/
def pySub1 : Value → Except PyErr Value
  | .int n => .ok (.int (n - 1))
  | .float q => .ok (.float (q - 1))
  | _ => .error (.typeError "unsupported operand type(s) for -")

/-- Python `str(v)`, simplified: only the string rendering of plain
strings is load-bearing (job names and descriptions built with `%s`
formatting); containers get a schematic rendering. -/
def pyStr : Value → String
  | .none => "None"
  | .int n => toString n
  | .float q => toString q
  | .str s => s
  | .entity etype eid => etype ++ " " ++ toString eid
  | .list _ => "[...]"
  | .dict _ => "\x7b...\x7d"

/-! ### Path helpers (`os.path` on POSIX, as used by the hook) -/

/-- Drop trailing `/` characters. -/
def rstripSlash (cs : List Char) : List Char :=
  (cs.reverse.dropWhile (fun c => c == '/')).reverse

/-- `posixpath.split`: split off everything after the last `/`; the head
keeps its trailing slashes only when it consists solely of slashes. -/
def splitPath (p : String) : String × String :=
  let cs := p.toList
  let tail := (cs.reverse.takeWhile (fun c => !(c == '/'))).reverse
  let head := cs.take (cs.length - tail.length)
  let headStripped :=
    if head ≠ [] ∧ head.any (fun c => !(c == '/')) then rstripSlash head else head
  (String.mk headStripped, String.mk tail)

/-- `posixpath.join` restricted to two components, as called by the
hook (the startswith/endswith tests are spelled over the character
list, which computes definitionally). -/
def joinPath (a b : String) : String :=
  if b.toList.take 1 = ['/'] then b
  else if a == "" || a.toList.getLast? = some '/' then a ++ b
  else a ++ "/" ++ b

/-- `posixpath.splitext`: split off the extension at the last dot of the
basename, unless every character before that dot in the basename is
itself a dot (so dotfiles such as `.bashrc` have no extension). -/
def splitExt (p : String) : String × String :=
  let cs := p.toList
  let base := (cs.reverse.takeWhile (fun c => !(c == '/'))).reverse
  let afterDot := base.reverse.takeWhile (fun c => !(c == '.'))
  if afterDot.length = base.length then (p, "")
  else
    let stem := base.take (base.length - afterDot.length - 1)
    if stem.all (fun c => c == '.') then (p, "")
    else
      let extLen := afterDot.length + 1
      (String.mk (cs.take (cs.length - extLen)), String.mk (cs.drop (cs.length - extLen)))

/-- Python `s.split(".")[0]`: the prefix of `s` before its first dot
(`s` itself when no dot occurs). -/
def beforeFirstDot (s : String) : String :=
  String.mk (s.toList.takeWhile (fun c => !(c == '.')))

/-! ### The frame-range scanner (`re.search(r"(\[[0-9]+-[0-9]+\])\.", ..)`)

The pattern is anchored at a literal `[`, and the two digit classes are
disjoint from the characters that follow them (`-`, `]`), so the
backtracking regex match at a given start position is exactly the
maximal-digit-run match performed by `matchAt`; `re.search` returns the
leftmost such match, which `searchFrameToken` reproduces by trying each
suffix left to right. -/

/-- Match `\[[0-9]+-[0-9]+\]\.` anchored at the head of `cs`, returning
group 1 (the bracketed token, without the trailing dot). -/
def matchAt : List Char → Option String
  | [] => Option.none
  | c0 :: rest =>
    if c0 = '[' then
      let d1 := rest.takeWhile Char.isDigit
      let r1 := rest.dropWhile Char.isDigit
      if d1.isEmpty then Option.none else
      match r1 with
      | [] => Option.none
      | c1 :: r2 =>
        if c1 = '-' then
          let d2 := r2.takeWhile Char.isDigit
          let r3 := r2.dropWhile Char.isDigit
          if d2.isEmpty then Option.none else
          match r3 with
          | [] => Option.none
          | c2 :: r4 =>
            if c2 = ']' then
              match r4 with
              | [] => Option.none
              | c3 :: _ =>
                if c3 = '.' then some (String.mk ('[' :: (d1 ++ '-' :: (d2 ++ [']']))))
                else Option.none
            else Option.none
        else Option.none
    else Option.none

/-- Leftmost match of the frame-range pattern: try `matchAt` at every
start position, scanning left to right. -/
def searchFrameToken : List Char → Option String
  | [] => Option.none
  | c :: rest =>
    match matchAt (c :: rest) with
    | some t => some t
    | Option.none => searchFrameToken rest

/-- Python `s[1:-1]`: drop the first and last character, as applied to
`re_match.group(1)` to strip the brackets. -/
def stripBrackets (s : String) : String :=
  String.mk ((s.toList.drop 1).dropLast)

/-! ### The Version metadata builder (`publish`, lines 145-182)

The dictionary construction is split into the initial literal and the
four conditional blocks, composed in source order by `buildVerData`;
each block is an exact translation of the corresponding lines. -/

/-- The item context (`item.context`): opaque project / entity / task
references. -/
structure Context where
  project : Value
  entity : Value
  task : Value

/-- The publish item: name, description, context and the mutable
property bag. -/
structure Item where
  name : Value
  description : Value
  context : Context
  properties : List (String × Value)

/-- Lines 148-157: the initial `ver_data` dict literal followed by the
unconditional `sg_department` assignment. -/
def verBase (ctx : Context) (name description path : Value) : List (String × Value) :=
  setKey
    [("project", ctx.project), ("code", name), ("description", description),
     ("entity", ctx.entity), ("sg_task", ctx.task), ("sg_path_to_frames", path)]
    "sg_department" (.str "Flame")

/-- Lines 161-163: `frame_rate = asset_info.get("fps")`; when truthy,
`ver_data["sg_uploaded_movie_frame_rate"] = float(frame_rate)`. -/
def fpsStep (asset_info : List (String × Value)) (ver_data : List (String × Value)) :
    Except PyErr (List (String × Value)) :=
  let frame_rate := dictGet asset_info "fps" .none
  if truthy frame_rate then
    match pyFloat frame_rate with
    | .ok q => .ok (setKey ver_data "sg_uploaded_movie_frame_rate" (.float q))
    | .error e => .error e
  else .ok ver_data

/-- Lines 165-168: `aspect_ratio = asset_info.get("aspectRatio")`; when
the whole dict is truthy (non-empty), both aspect fields are assigned
`float(aspect_ratio)`.  The two `float` calls in the source receive the
same argument, so a single coercion is performed. -/
def aspectStep (asset_info : List (String × Value)) (ver_data : List (String × Value)) :
    Except PyErr (List (String × Value)) :=
  let aspect_ratio := dictGet asset_info "aspectRatio" .none
  if asset_info.isEmpty then .ok ver_data
  else
    match pyFloat aspect_ratio with
    | .ok q =>
      .ok (setKey (setKey ver_data "sg_frames_aspect_ratio" (.float q))
            "sg_movie_aspect_ratio" (.float q))
    | .error e => .error e

/-- Lines 175-177: `re.search` over `file_path` (a `TypeError` when it
is not a string, as when both `path` and `file_path` are absent), and
on a match `ver_data["frame_range"] = re_match.group(1)[1:-1]`. -/
def rangeStep (file_path : Value) (ver_data : List (String × Value)) :
    Except PyErr (List (String × Value)) :=
  match file_path with
  | .str s =>
    match searchFrameToken s.toList with
    | some tok => .ok (setKey ver_data "frame_range" (.str (stripBrackets tok)))
    | Option.none => .ok ver_data
  | _ => .error (.typeError "expected string or bytes-like object")

/-- Lines 179-182: when both `sourceIn` and `sourceOut` are keys of the
asset info, set `sg_first_frame`, `sg_last_frame = sourceOut - 1` and
`frame_count = int(sg_last_frame) - int(sg_first_frame) + 1`. -/
def sourceStep (asset_info : List (String × Value)) (ver_data : List (String × Value)) :
    Except PyErr (List (String × Value)) :=
  if (lookup asset_info "sourceIn").isSome && (lookup asset_info "sourceOut").isSome then
    match pySub1 (dictGet asset_info "sourceOut" .none) with
    | .error e => .error e
    | .ok lastv =>
      let vd1 := setKey ver_data "sg_first_frame" (dictGet asset_info "sourceIn" .none)
      let vd2 := setKey vd1 "sg_last_frame" lastv
      match pyInt (dictGet vd2 "sg_last_frame" .none) with
      | .error e => .error e
      | .ok li =>
        match pyInt (dictGet vd2 "sg_first_frame" .none) with
        | .error e => .error e
        | .ok fi => .ok (setKey vd2 "frame_count" (.int (li - fi + 1)))
  else .ok ver_data

/-- Lines 148-182: the whole `ver_data` construction, steps composed in
source order with Python exception propagation. -/
def buildVerData (ctx : Context) (name description path : Value)
    (asset_info : List (String × Value)) (file_path : Value) :
    Except PyErr (List (String × Value)) :=
  match fpsStep asset_info (verBase ctx name description path) with
  | .error e => .error e
  | .ok v1 =>
    match aspectStep asset_info v1 with
    | .error e => .error e
    | .ok v2 =>
      match rangeStep file_path v2 with
      | .error e => .error e
      | .ok v3 => sourceStep asset_info v3

/-- Line 159: `item.properties.get("assetInfo", {})` followed by the
`.get` attribute accesses, which require the value to be a dict. -/
def getAssetInfo (props : List (String × Value)) : Except PyErr (List (String × Value)) :=
  match dictGet props "assetInfo" (.dict []) with
  | .dict d => .ok d
  | _ => .error (.attributeError "object has no attribute get")

/-! ### The external collaborators and the effect log -/

/-- One job-queue submission, as recorded by the model: the fresh job
id handed back, the submitted fields, and the opaque `args` payload. -/
structure JobReq where
  id : Nat
  name : String
  description : String
  dependencies : Value
  instanceName : String
  methodName : String
  args : List (String × Value)

/-- The external world: the job-id counter, every job submission in
order, and every database record creation in order. -/
structure World where
  nextJobId : Nat
  jobs : List JobReq
  creates : List (String × List (String × Value))

/-- Static engine configuration: how the transcode service resolves the
requested destination path, which temp files it reports, the
`sanitize_backburner_job_name` renaming, and `local_movies_preset_path`.
All are opaque external behaviour, kept as parameters. -/
structure EngineCfg where
  resolveDst : String → String
  tmpFiles : List String
  sanitize : Value → String → String
  presetPath : String

/-- Modelled from the spec: `engine.create_local_backburner_job(..)`
(the job queue of this repository outside the hook file) records one
submission and returns its fresh job id (spec section 6). -/
def createJob (name description : String) (dependencies : Value)
    (instanceName methodName : String) (args : List (String × Value)) (w : World) :
    Nat × World :=
  (w.nextJobId,
   { w with
      nextJobId := w.nextJobId + 1,
      jobs := w.jobs ++ [⟨w.nextJobId, name, description, dependencies,
                          instanceName, methodName, args⟩] })

/-- Modelled from the spec: `engine.transcoder.transcode(..)` (this
repository, outside the hook file) submits one transcode job — job 1 of
the chain — carrying the given dependencies, and returns the resolved
destination path, that job id and the temp files eligible for deletion
(spec sections 4.2 and 6). -/
def transcode (cfg : EngineCfg) (src_path : Value) (dst_path extension display_name
    job_context preset_path : String) (asset_info : List (String × Value))
    (dependencies : Value) (w : World) : (String × Nat × List String) × World :=
  let (job_id, w1) := createJob display_name job_context dependencies "" "transcode"
    [("src_path", src_path), ("dst_path", .str dst_path)] w
  ((cfg.resolveDst dst_path, job_id, cfg.tmpFiles), w1)

/-- Modelled from the spec: the database client `sg.create(type, data)`
records the creation and returns an opaque record reference (spec
section 6). -/
def sgCreate (etype : String) (data : List (String × Value)) (w : World) : Value × World :=
  (.entity etype w.creates.length, { w with creates := w.creates ++ [(etype, data)] })

/-! ### The hook methods -/

/-- Lines 283-336, `generate_quicktime`: invoke the transcode service
(job 1), submit the dependent `update_path_to_movie` job (job 2), and
return the chain descriptor dict. -/
def generate_quicktime (cfg : EngineCfg) (src_path : Value) (dst_path display_name : String)
    (target_entities : List Value) (asset_info : List (String × Value))
    (dependencies : Value) (w : World) : List (String × Value) × World :=
  let ((dst_path2, job_id, files_to_delete), w1) :=
    transcode cfg src_path dst_path (splitExt dst_path).2 display_name
      "Create Shotgun Local Movie" cfg.presetPath asset_info dependencies w
  let (_, w2) := createJob
    (display_name ++ " - Updating Shotgun Path to movie")
    ("Uploading Shotgun Path to movie to " ++ dst_path2)
    (.int (job_id : Int))
    "backburner_hooks" "update_path_to_movie"
    [("targets", .list target_entities), ("path", .str dst_path2),
     ("files_to_delete", .list (files_to_delete.map Value.str))] w1
  ([("display_name", .str display_name), ("dependencies", .int (job_id : Int)),
    ("target_entities", .list target_entities), ("path", .str dst_path2),
    ("files_to_delete", .list (files_to_delete.map Value.str))], w2)

/-- Lines 220-257, `_upload_quicktime_job`: submit the dependent
`copy_from_temp_and_upload_to_shotgun` job (job 3) built from the chain
descriptor, and return its id. -/
def upload_quicktime_job (cfg : EngineCfg) (quicktime_job : List (String × Value))
    (w : World) : Nat × World :=
  let field_name := "sg_uploaded_movie"
  let job_context := "Move and Upload Flame Quicktime"
  let job_name := cfg.sanitize (dictGet quicktime_job "display_name" .none)
    (" - " ++ job_context)
  let job_description := job_context ++ " for "
    ++ pyStr (dictGet quicktime_job "display_name" .none) ++ "\n "
    ++ pyStr (dictGet quicktime_job "path" .none)
  createJob job_name job_description (dictGet quicktime_job "dependencies" .none)
    "backburner_hooks" "copy_from_temp_and_upload_to_shotgun"
    [("targets", dictGet quicktime_job "target_entities" .none),
     ("path", dictGet quicktime_job "path" .none),
     ("field_name", .str field_name),
     ("display_name", dictGet quicktime_job "display_name" .none),
     ("files_to_delete", dictGet quicktime_job "files_to_delete" .none)] w

/-- Lines 136-216, `publish`: build `ver_data`, create the Version,
stash it, derive the quicktime name next to `path`, run
`generate_quicktime`, and stash its descriptor.  An uncaught Python
exception leaves the world as accumulated so far (the match on `path`
comes after the record creation, exactly as line 201 follows line 185).
-/
def publish (cfg : EngineCfg) (item : Item) (w : World) : Except PyErr Item × World :=
  let path := dictGet item.properties "path" .none
  match getAssetInfo item.properties with
  | .error e => (.error e, w)
  | .ok asset_info =>
    let file_path := dictGet item.properties "file_path" path
    match buildVerData item.context item.name item.description path asset_info file_path with
    | .error e => (.error e, w)
    | .ok ver_data =>
      let (version, w1) := sgCreate "Version" ver_data w
      let props1 := setKey item.properties "Version" version
      let dependencies := dictGet props1 "backgroundJobId" .none
      match path with
      | .str pathS =>
        let quicktime_name := beforeFirstDot (splitPath pathS).2 ++ ".mov"
        let quicktime_path := joinPath (splitPath pathS).1 quicktime_name
        let (quicktime_job, w2) := generate_quicktime cfg file_path quicktime_path
          quicktime_name [version] asset_info dependencies w1
        let props2 := setKey (setKey (setKey props1
            "quicktime_name" (.str quicktime_name))
            "quicktime_path" (.str quicktime_path))
            "quicktime_job" (.dict quicktime_job)
        (.ok { item with properties := props2 }, w2)
      | _ => (.error (.typeError "expected str, bytes or os.PathLike object, not NoneType"), w1)

/-- Lines 262-278, `finalize`: read the stashed descriptor; when truthy
run `_upload_quicktime_job` and return its job id, otherwise do nothing
and return `None`. -/
def finalize (cfg : EngineCfg) (item : Item) (w : World) :
    Except PyErr (Option Nat) × World :=
  let quicktime_job := dictGet item.properties "quicktime_job" .none
  if truthy quicktime_job then
    match quicktime_job with
    | .dict d =>
      let (job_id, w1) := upload_quicktime_job cfg d w
      (.ok (some job_id), w1)
    | _ => (.error (.attributeError "object has no attribute get"), w)
  else (.ok Option.none, w)

/-! ### Dictionary lemmas -/

theorem lookup_cons (a : String × Value) (d : List (String × Value)) (k : String) :
    lookup (a :: d) k = if a.1 = k then some a.2 else lookup d k := by
  by_cases h : a.1 = k
  · simp [lookup, List.find?_cons, h]
  · simp [lookup, List.find?_cons, h]

theorem lookup_append (d e : List (String × Value)) (k : String) :
    lookup (d ++ e) k =
      match lookup d k with
      | some v => some v
      | Option.none => lookup e k := by
  induction d with
  | nil => simp [lookup]
  | cons a t ih =>
    rw [List.cons_append, lookup_cons, lookup_cons]
    by_cases h : a.1 = k <;> simp [h, ih]

theorem lookup_map_set (d : List (String × Value)) (k : String) (v : Value) :
    lookup (d.map (fun p => if p.1 = k then (k, v) else p)) k =
      if (lookup d k).isSome then some v else Option.none := by
  induction d with
  | nil => simp [lookup]
  | cons a t ih =>
    rw [List.map_cons]
    by_cases h : a.1 = k
    · rw [if_pos h]
      rw [lookup_cons (k, v), if_pos rfl, lookup_cons, if_pos h]
      simp
    · rw [if_neg h, lookup_cons, if_neg h, lookup_cons, if_neg h, ih]

theorem lookup_map_ne (d : List (String × Value)) (k : String) (v : Value) (k2 : String)
    (h : k2 ≠ k) :
    lookup (d.map (fun p => if p.1 = k then (k, v) else p)) k2 = lookup d k2 := by
  induction d with
  | nil => rfl
  | cons a t ih =>
    rw [List.map_cons]
    by_cases ha : a.1 = k
    · rw [if_pos ha, lookup_cons (k, v), lookup_cons, ih]
      rw [if_neg (fun e => h e.symm), if_neg (fun e => h (ha ▸ e).symm)]
    · rw [if_neg ha, lookup_cons, lookup_cons, ih]

theorem lookup_setKey_self (d : List (String × Value)) (k : String) (v : Value) :
    lookup (setKey d k v) k = some v := by
  unfold setKey
  by_cases h : (lookup d k).isSome
  · rw [if_pos h, lookup_map_set, if_pos h]
  · rw [if_neg h, lookup_append, Option.not_isSome_iff_eq_none.mp h]
    rw [lookup_cons, if_pos rfl]

theorem lookup_setKey_ne (d : List (String × Value)) (k : String) (v : Value) (k2 : String)
    (h : k2 ≠ k) : lookup (setKey d k v) k2 = lookup d k2 := by
  unfold setKey
  by_cases hs : (lookup d k).isSome
  · rw [if_pos hs, lookup_map_ne _ _ _ _ h]
  · rw [if_neg hs, lookup_append]
    cases hl : lookup d k2 with
    | some v2 => rfl
    | none => rw [lookup_cons, if_neg (fun e => h e.symm)]; rfl

/-! ### Builder step lemmas -/

theorem verBase_lookup_rate (ctx : Context) (n d p : Value) :
    lookup (verBase ctx n d p) "sg_uploaded_movie_frame_rate" = Option.none := rfl

theorem verBase_lookup_frames_aspect (ctx : Context) (n d p : Value) :
    lookup (verBase ctx n d p) "sg_frames_aspect_ratio" = Option.none := rfl

theorem verBase_lookup_movie_aspect (ctx : Context) (n d p : Value) :
    lookup (verBase ctx n d p) "sg_movie_aspect_ratio" = Option.none := rfl

theorem verBase_lookup_frame_range (ctx : Context) (n d p : Value) :
    lookup (verBase ctx n d p) "frame_range" = Option.none := rfl

theorem verBase_lookup_first (ctx : Context) (n d p : Value) :
    lookup (verBase ctx n d p) "sg_first_frame" = Option.none := rfl

theorem verBase_lookup_last (ctx : Context) (n d p : Value) :
    lookup (verBase ctx n d p) "sg_last_frame" = Option.none := rfl

theorem verBase_lookup_count (ctx : Context) (n d p : Value) :
    lookup (verBase ctx n d p) "frame_count" = Option.none := rfl

theorem fpsStep_ok_lookup (ai vd vd2 : List (String × Value)) (k : String)
    (h : fpsStep ai vd = .ok vd2) (hk : k ≠ "sg_uploaded_movie_frame_rate") :
    lookup vd2 k = lookup vd k := by
  simp only [fpsStep] at h
  split at h
  · split at h
    · cases h; exact lookup_setKey_ne _ _ _ _ hk
    · cases h
  · cases h; rfl

theorem fpsStep_truthy (ai vd vd2 : List (String × Value))
    (h : fpsStep ai vd = .ok vd2) (ht : truthy (dictGet ai "fps" .none) = true) :
    ∃ q, pyFloat (dictGet ai "fps" .none) = .ok q ∧
      lookup vd2 "sg_uploaded_movie_frame_rate" = some (.float q) := by
  simp only [fpsStep, ht, if_true] at h
  split at h
  · cases h
    exact ⟨_, by assumption, lookup_setKey_self _ _ _⟩
  · cases h

theorem fpsStep_falsy (ai vd : List (String × Value))
    (ht : truthy (dictGet ai "fps" .none) = false) :
    fpsStep ai vd = .ok vd := by
  simp [fpsStep, ht]

theorem aspectStep_ok_lookup (ai vd vd2 : List (String × Value)) (k : String)
    (h : aspectStep ai vd = .ok vd2)
    (hk1 : k ≠ "sg_frames_aspect_ratio") (hk2 : k ≠ "sg_movie_aspect_ratio") :
    lookup vd2 k = lookup vd k := by
  simp only [aspectStep] at h
  split at h
  · cases h; rfl
  · split at h
    · cases h
      rw [lookup_setKey_ne _ _ _ _ hk2, lookup_setKey_ne _ _ _ _ hk1]
    · cases h

theorem aspectStep_empty (ai vd : List (String × Value)) (he : ai = []) :
    aspectStep ai vd = .ok vd := by
  subst he; rfl

theorem aspectStep_nonempty (ai vd vd2 : List (String × Value))
    (hne : ai ≠ []) (h : aspectStep ai vd = .ok vd2) :
    ∃ q, pyFloat (dictGet ai "aspectRatio" .none) = .ok q ∧
      lookup vd2 "sg_frames_aspect_ratio" = some (.float q) ∧
      lookup vd2 "sg_movie_aspect_ratio" = some (.float q) := by
  simp only [aspectStep, if_neg (by simpa using hne : ¬ai.isEmpty = true)] at h
  split at h
  · cases h
    refine ⟨_, by assumption, ?_, lookup_setKey_self _ _ _⟩
    rw [lookup_setKey_ne _ _ _ _ (by decide), lookup_setKey_self]
  · cases h

theorem aspectStep_missing (ai vd : List (String × Value))
    (hne : ai ≠ []) (hl : lookup ai "aspectRatio" = Option.none) :
    aspectStep ai vd =
      .error (.typeError "float() argument must be a string or a real number, not NoneType") := by
  have hd : dictGet ai "aspectRatio" .none = .none := by rw [dictGet, hl]
  simp only [aspectStep, hd, if_neg (by simpa using hne : ¬ai.isEmpty = true)]
  rfl

theorem rangeStep_ok_lookup (fp : Value) (vd vd2 : List (String × Value)) (k : String)
    (h : rangeStep fp vd = .ok vd2) (hk : k ≠ "frame_range") :
    lookup vd2 k = lookup vd k := by
  simp only [rangeStep] at h
  split at h
  · split at h
    · cases h; exact lookup_setKey_ne _ _ _ _ hk
    · cases h; rfl
  · cases h

theorem rangeStep_result (s : String) (vd vd2 : List (String × Value))
    (h0 : lookup vd "frame_range" = Option.none)
    (h : rangeStep (.str s) vd = .ok vd2) :
    lookup vd2 "frame_range" =
      (searchFrameToken s.toList).map (fun tok => Value.str (stripBrackets tok)) := by
  simp only [rangeStep] at h
  cases hs : searchFrameToken s.toList with
  | some tok =>
    rw [hs] at h
    cases h
    rw [lookup_setKey_self]; rfl
  | none =>
    rw [hs] at h
    cases h
    rw [h0]; rfl

theorem sourceStep_ok_lookup (ai vd vd2 : List (String × Value)) (k : String)
    (h : sourceStep ai vd = .ok vd2)
    (hk1 : k ≠ "sg_first_frame") (hk2 : k ≠ "sg_last_frame") (hk3 : k ≠ "frame_count") :
    lookup vd2 k = lookup vd k := by
  simp only [sourceStep] at h
  split at h
  · split at h
    · cases h
    · split at h
      · cases h
      · split at h
        · cases h
        · cases h
          rw [lookup_setKey_ne _ _ _ _ hk3, lookup_setKey_ne _ _ _ _ hk2,
              lookup_setKey_ne _ _ _ _ hk1]
  · cases h; rfl

theorem sourceStep_skip (ai vd : List (String × Value))
    (h : ¬((lookup ai "sourceIn").isSome = true ∧ (lookup ai "sourceOut").isSome = true)) :
    sourceStep ai vd = .ok vd := by
  simp only [sourceStep]
  rw [if_neg]
  simpa using h

theorem sourceStep_ints (ai vd : List (String × Value)) (sIn sOut : Int)
    (h1 : lookup ai "sourceIn" = some (.int sIn))
    (h2 : lookup ai "sourceOut" = some (.int sOut)) :
    sourceStep ai vd =
      .ok (setKey (setKey (setKey vd "sg_first_frame" (.int sIn))
            "sg_last_frame" (.int (sOut - 1)))
            "frame_count" (.int ((sOut - 1) - sIn + 1))) := by
  have hin : dictGet ai "sourceIn" .none = .int sIn := by rw [dictGet, h1]
  have hout : dictGet ai "sourceOut" .none = .int sOut := by rw [dictGet, h2]
  have hlast : dictGet (setKey (setKey vd "sg_first_frame" (.int sIn)) "sg_last_frame"
      (.int (sOut - 1))) "sg_last_frame" .none = .int (sOut - 1) := by
    rw [dictGet, lookup_setKey_self]
  have hfirst : dictGet (setKey (setKey vd "sg_first_frame" (.int sIn)) "sg_last_frame"
      (.int (sOut - 1))) "sg_first_frame" .none = .int sIn := by
    rw [dictGet, lookup_setKey_ne _ _ _ _ (by decide), lookup_setKey_self]
  simp only [sourceStep, hin, hout, h1, h2, Option.isSome_some, Bool.and_self, if_true,
    pySub1, hlast, hfirst, pyInt]

theorem buildVerData_ok_inv (ctx : Context) (n d p : Value) (ai : List (String × Value))
    (fp : Value) (vd : List (String × Value)) (h : buildVerData ctx n d p ai fp = .ok vd) :
    ∃ v1 v2 v3, fpsStep ai (verBase ctx n d p) = .ok v1 ∧ aspectStep ai v1 = .ok v2 ∧
      rangeStep fp v2 = .ok v3 ∧ sourceStep ai v3 = .ok vd := by
  simp only [buildVerData] at h
  split at h
  · cases h
  · split at h
    · cases h
    · split at h
      · cases h
      · exact ⟨_, _, _, by assumption, by assumption, by assumption, h⟩

theorem buildVerData_none_file (ctx : Context) (n d p : Value) (ai : List (String × Value)) :
    ∃ e, buildVerData ctx n d p ai Value.none = .error e := by
  simp only [buildVerData]
  split
  · exact ⟨_, rfl⟩
  · split
    · exact ⟨_, rfl⟩
    · split
      · exact ⟨_, rfl⟩
      · rename_i v2 v3 hr
        exact absurd hr (by simp [rangeStep])

/-! ### Sample fixtures used by witnesses and counterexamples -/

/-- A concrete item context. -/
def ctx0 : Context := ⟨.entity "Project" 1, .entity "Shot" 2, .entity "Task" 3⟩

/-- A concrete engine configuration: the transcode service keeps the
requested destination, reports one temp file, and job names are
sanitized by prefixing. -/
def cfg0 : EngineCfg :=
  ⟨fun s => s, ["/tmp/backburner.tmp"], fun _ suffix => "job" ++ suffix, "/presets/movie.xml"⟩

/-! ### Claims about the metadata builder -/

/-- Claim C2, counterexample: for `assetInfo = \x7bfps: 24.0\x7d` the builder
does not return a `VersionData` at all — the aspect block runs because
the dict is non-empty and `float(None)` raises a `TypeError`. -/
theorem c2_counterexample :
    Except.isOk (buildVerData ctx0 (.str "clip") (.str "desc") (.str "p")
      [("fps", Value.float 24)] (.str "x.exr")) = false ∧
    buildVerData ctx0 (.str "clip") (.str "desc") (.str "p")
      [("fps", Value.float 24)] (.str "x.exr") =
      .error (.typeError "float() argument must be a string or a real number, not NoneType") :=
  ⟨rfl, rfl⟩

/-- Claim C2 (amended): for every `assetInfo` equal to `\x7bfps: 24.0\x7d` the
builder records the frame rate and then raises a `TypeError` coercing the
missing `aspectRatio` (`float(None)`), for any context, descriptive
fields and file path; no `VersionData` is returned. -/
theorem c2_fps_only_raises (ctx : Context) (n d p fp : Value) :
    buildVerData ctx n d p [("fps", Value.float 24)] fp =
      .error (.typeError "float() argument must be a string or a real number, not NoneType") := rfl

/-- Claim C3, counterexample: `assetInfo = \x7bfps: 30\x7d` is a non-empty
mapping, yet the builder does not set the aspect fields — it raises
instead, so "sets both aspect fields iff the mapping is non-empty"
fails in the only-if-direction promised for every non-empty mapping. -/
theorem c3_counterexample :
    ([("fps", Value.int 30)] : List (String × Value)) ≠ [] ∧
    Except.isOk (buildVerData ctx0 (.str "c3") (.str "d3") (.str "p3")
      [("fps", Value.int 30)] (.str "y.exr")) = false :=
  ⟨List.cons_ne_nil _ _, rfl⟩

/-- Claim C3 (amended): the aspect branch is guarded by non-emptiness of
the whole `assetInfo` mapping, not by presence of the `aspectRatio` key:
an empty mapping sets neither aspect field; a non-empty mapping whose
`aspectRatio` coerces to a float `q` sets both fields to `q`; and a
non-empty mapping without the `aspectRatio` key never yields a
`VersionData` (the coercion of the missing value raises). -/
theorem c3_aspect_condition (ctx : Context) (n d p : Value)
    (ai : List (String × Value)) (fp : Value) :
    (ai = [] → ∀ vd, buildVerData ctx n d p ai fp = .ok vd →
       lookup vd "sg_frames_aspect_ratio" = Option.none ∧
       lookup vd "sg_movie_aspect_ratio" = Option.none)
    ∧ (∀ q : Rat, ai ≠ [] → pyFloat (dictGet ai "aspectRatio" .none) = .ok q →
       ∀ vd, buildVerData ctx n d p ai fp = .ok vd →
         lookup vd "sg_frames_aspect_ratio" = some (.float q) ∧
         lookup vd "sg_movie_aspect_ratio" = some (.float q))
    ∧ (ai ≠ [] → lookup ai "aspectRatio" = Option.none →
       ∀ vd, buildVerData ctx n d p ai fp ≠ .ok vd) := by
  refine ⟨?_, ?_, ?_⟩
  · intro he vd h
    obtain ⟨v1, v2, v3, h1, h2, h3, h4⟩ := buildVerData_ok_inv _ _ _ _ _ _ _ h
    rw [aspectStep_empty _ _ he] at h2
    cases h2
    constructor
    · rw [sourceStep_ok_lookup _ _ _ _ h4 (by decide) (by decide) (by decide),
          rangeStep_ok_lookup _ _ _ _ h3 (by decide),
          fpsStep_ok_lookup _ _ _ _ h1 (by decide), verBase_lookup_frames_aspect]
    · rw [sourceStep_ok_lookup _ _ _ _ h4 (by decide) (by decide) (by decide),
          rangeStep_ok_lookup _ _ _ _ h3 (by decide),
          fpsStep_ok_lookup _ _ _ _ h1 (by decide), verBase_lookup_movie_aspect]
  · intro q hne hq vd h
    obtain ⟨v1, v2, v3, h1, h2, h3, h4⟩ := buildVerData_ok_inv _ _ _ _ _ _ _ h
    obtain ⟨q2, hq2, hl1, hl2⟩ := aspectStep_nonempty _ _ _ hne h2
    have hqq : q2 = q := by
      have := hq2.symm.trans hq
      exact Except.ok.inj this
    subst hqq
    constructor
    · rw [sourceStep_ok_lookup _ _ _ _ h4 (by decide) (by decide) (by decide),
          rangeStep_ok_lookup _ _ _ _ h3 (by decide), hl1]
    · rw [sourceStep_ok_lookup _ _ _ _ h4 (by decide) (by decide) (by decide),
          rangeStep_ok_lookup _ _ _ _ h3 (by decide), hl2]
  · intro hne hl vd h
    obtain ⟨v1, v2, v3, h1, h2, h3, h4⟩ := buildVerData_ok_inv _ _ _ _ _ _ _ h
    rw [aspectStep_missing _ _ hne hl] at h2
    cases h2

/-- Claim C3 (amended), witness at `assetInfo = \x7baspectRatio: 1.78\x7d`:
both aspect fields of the built data equal `1.78`. -/
theorem c3_witness :
    lookup [("project", Value.entity "Project" 1), ("code", Value.str "c"),
      ("description", Value.str "d"), ("entity", Value.entity "Shot" 2),
      ("sg_task", Value.entity "Task" 3), ("sg_path_to_frames", Value.str "p"),
      ("sg_department", Value.str "Flame"),
      ("sg_frames_aspect_ratio", Value.float 1.78),
      ("sg_movie_aspect_ratio", Value.float 1.78)] "sg_frames_aspect_ratio" =
      some (Value.float 1.78) ∧
    lookup [("project", Value.entity "Project" 1), ("code", Value.str "c"),
      ("description", Value.str "d"), ("entity", Value.entity "Shot" 2),
      ("sg_task", Value.entity "Task" 3), ("sg_path_to_frames", Value.str "p"),
      ("sg_department", Value.str "Flame"),
      ("sg_frames_aspect_ratio", Value.float 1.78),
      ("sg_movie_aspect_ratio", Value.float 1.78)] "sg_movie_aspect_ratio" =
      some (Value.float 1.78) :=
  (c3_aspect_condition ctx0 (.str "c") (.str "d") (.str "p")
    [("aspectRatio", Value.float 1.78)] (.str "z.exr")).2.1 1.78
    (List.cons_ne_nil _ _) rfl _ rfl

/-- Claim C5: when both `sourceIn` and `sourceOut` are present (integer
frame indices), the built data has `sg_first_frame = sourceIn`,
`sg_last_frame = sourceOut - 1` and integer
`frame_count = sg_last_frame - sg_first_frame + 1`; when the two keys
are not both present, none of the three fields is set. -/
theorem c5_source_fields (ctx : Context) (n d p : Value)
    (ai : List (String × Value)) (fp : Value) :
    (∀ (sIn sOut : Int) (vd : List (String × Value)),
       lookup ai "sourceIn" = some (.int sIn) →
       lookup ai "sourceOut" = some (.int sOut) →
       buildVerData ctx n d p ai fp = .ok vd →
         lookup vd "sg_first_frame" = some (.int sIn) ∧
         lookup vd "sg_last_frame" = some (.int (sOut - 1)) ∧
         lookup vd "frame_count" = some (.int ((sOut - 1) - sIn + 1)))
    ∧ (¬((lookup ai "sourceIn").isSome = true ∧ (lookup ai "sourceOut").isSome = true) →
       ∀ vd, buildVerData ctx n d p ai fp = .ok vd →
         lookup vd "sg_first_frame" = Option.none ∧
         lookup vd "sg_last_frame" = Option.none ∧
         lookup vd "frame_count" = Option.none) := by
  constructor
  · intro sIn sOut vd hin hout h
    obtain ⟨v1, v2, v3, h1, h2, h3, h4⟩ := buildVerData_ok_inv _ _ _ _ _ _ _ h
    rw [sourceStep_ints _ _ _ _ hin hout] at h4
    cases h4
    refine ⟨?_, ?_, lookup_setKey_self _ _ _⟩
    · rw [lookup_setKey_ne _ _ _ _ (by decide), lookup_setKey_ne _ _ _ _ (by decide),
          lookup_setKey_self]
    · rw [lookup_setKey_ne _ _ _ _ (by decide), lookup_setKey_self]
  · intro hnb vd h
    obtain ⟨v1, v2, v3, h1, h2, h3, h4⟩ := buildVerData_ok_inv _ _ _ _ _ _ _ h
    rw [sourceStep_skip _ _ hnb] at h4
    cases h4
    refine ⟨?_, ?_, ?_⟩
    · rw [rangeStep_ok_lookup _ _ _ _ h3 (by decide),
          aspectStep_ok_lookup _ _ _ _ h2 (by decide) (by decide),
          fpsStep_ok_lookup _ _ _ _ h1 (by decide), verBase_lookup_first]
    · rw [rangeStep_ok_lookup _ _ _ _ h3 (by decide),
          aspectStep_ok_lookup _ _ _ _ h2 (by decide) (by decide),
          fpsStep_ok_lookup _ _ _ _ h1 (by decide), verBase_lookup_last]
    · rw [rangeStep_ok_lookup _ _ _ _ h3 (by decide),
          aspectStep_ok_lookup _ _ _ _ h2 (by decide) (by decide),
          fpsStep_ok_lookup _ _ _ _ h1 (by decide), verBase_lookup_count]

/-- Claim C5, witness at `sourceIn=1001, sourceOut=1051` (with a numeric
aspect so the non-empty dict passes the aspect block): first frame 1001,
last frame 1050, frame count 50. -/
theorem c5_witness :
    lookup [("project", Value.entity "Project" 1), ("code", Value.str "c5"),
      ("description", Value.str "d5"), ("entity", Value.entity "Shot" 2),
      ("sg_task", Value.entity "Task" 3), ("sg_path_to_frames", Value.str "p5"),
      ("sg_department", Value.str "Flame"),
      ("sg_frames_aspect_ratio", Value.float 1),
      ("sg_movie_aspect_ratio", Value.float 1),
      ("sg_first_frame", Value.int 1001), ("sg_last_frame", Value.int 1050),
      ("frame_count", Value.int 50)] "sg_first_frame" = some (Value.int 1001) ∧
    lookup [("project", Value.entity "Project" 1), ("code", Value.str "c5"),
      ("description", Value.str "d5"), ("entity", Value.entity "Shot" 2),
      ("sg_task", Value.entity "Task" 3), ("sg_path_to_frames", Value.str "p5"),
      ("sg_department", Value.str "Flame"),
      ("sg_frames_aspect_ratio", Value.float 1),
      ("sg_movie_aspect_ratio", Value.float 1),
      ("sg_first_frame", Value.int 1001), ("sg_last_frame", Value.int 1050),
      ("frame_count", Value.int 50)] "sg_last_frame" = some (Value.int 1050) ∧
    lookup [("project", Value.entity "Project" 1), ("code", Value.str "c5"),
      ("description", Value.str "d5"), ("entity", Value.entity "Shot" 2),
      ("sg_task", Value.entity "Task" 3), ("sg_path_to_frames", Value.str "p5"),
      ("sg_department", Value.str "Flame"),
      ("sg_frames_aspect_ratio", Value.float 1),
      ("sg_movie_aspect_ratio", Value.float 1),
      ("sg_first_frame", Value.int 1001), ("sg_last_frame", Value.int 1050),
      ("frame_count", Value.int 50)] "frame_count" = some (Value.int 50) :=
  (c5_source_fields ctx0 (.str "c5") (.str "d5") (.str "p5")
    [("sourceIn", Value.int 1001), ("sourceOut", Value.int 1051),
     ("aspectRatio", Value.int 1)] (.str "w.exr")).1 1001 1051 _ rfl rfl rfl

/-- Claim C9: the uploaded-movie frame-rate field is present in the
built data exactly when `fps` is present and truthy (so a zero or
otherwise falsy `fps` is treated as absent), in which case it carries
`float(fps)`; and with no `assetInfo` at all none of the rate, aspect
or frame fields appears. -/
theorem c9_fps_rate (ctx : Context) (n d p : Value)
    (ai : List (String × Value)) (fp : Value) :
    (∀ vd, buildVerData ctx n d p ai fp = .ok vd →
       ((lookup vd "sg_uploaded_movie_frame_rate").isSome = true ↔
         truthy (dictGet ai "fps" .none) = true)
       ∧ (∀ q : Rat, truthy (dictGet ai "fps" .none) = true →
           pyFloat (dictGet ai "fps" .none) = .ok q →
           lookup vd "sg_uploaded_movie_frame_rate" = some (.float q)))
    ∧ (ai = [] → ∀ vd, buildVerData ctx n d p ai fp = .ok vd →
       lookup vd "sg_uploaded_movie_frame_rate" = Option.none ∧
       lookup vd "sg_frames_aspect_ratio" = Option.none ∧
       lookup vd "sg_movie_aspect_ratio" = Option.none ∧
       lookup vd "sg_first_frame" = Option.none ∧
       lookup vd "sg_last_frame" = Option.none ∧
       lookup vd "frame_count" = Option.none) := by
  constructor
  · intro vd h
    obtain ⟨v1, v2, v3, h1, h2, h3, h4⟩ := buildVerData_ok_inv _ _ _ _ _ _ _ h
    have hpres : lookup vd "sg_uploaded_movie_frame_rate" =
        lookup v1 "sg_uploaded_movie_frame_rate" := by
      rw [sourceStep_ok_lookup _ _ _ _ h4 (by decide) (by decide) (by decide),
          rangeStep_ok_lookup _ _ _ _ h3 (by decide),
          aspectStep_ok_lookup _ _ _ _ h2 (by decide) (by decide)]
    cases ht : truthy (dictGet ai "fps" .none) with
    | true =>
      obtain ⟨q0, hq0, hl⟩ := fpsStep_truthy _ _ _ h1 ht
      refine ⟨by rw [hpres, hl]; simp, ?_⟩
      intro q _ hq
      have : q0 = q := Except.ok.inj (hq0.symm.trans hq)
      subst this
      rw [hpres, hl]
    | false =>
      rw [fpsStep_falsy _ _ ht] at h1
      cases h1
      refine ⟨?_, ?_⟩
      · rw [hpres, verBase_lookup_rate]; simp
      · intro q hqt _
        exact absurd hqt (by decide)
  · intro he vd h
    subst he
    obtain ⟨v1, v2, v3, h1, h2, h3, h4⟩ := buildVerData_ok_inv _ _ _ _ _ _ _ h
    rw [fpsStep_falsy [] (verBase ctx n d p) rfl] at h1
    cases h1
    rw [aspectStep_empty _ _ rfl] at h2
    cases h2
    rw [sourceStep_skip _ _ (by simp [lookup])] at h4
    cases h4
    refine ⟨?_, ?_, ?_, ?_, ?_, ?_⟩
    · rw [rangeStep_ok_lookup _ _ _ _ h3 (by decide), verBase_lookup_rate]
    · rw [rangeStep_ok_lookup _ _ _ _ h3 (by decide), verBase_lookup_frames_aspect]
    · rw [rangeStep_ok_lookup _ _ _ _ h3 (by decide), verBase_lookup_movie_aspect]
    · rw [rangeStep_ok_lookup _ _ _ _ h3 (by decide), verBase_lookup_first]
    · rw [rangeStep_ok_lookup _ _ _ _ h3 (by decide), verBase_lookup_last]
    · rw [rangeStep_ok_lookup _ _ _ _ h3 (by decide), verBase_lookup_count]

/-- Claim C9, witness at `assetInfo = \x7bfps: 24.0, aspectRatio: 2\x7d`: the
frame-rate field carries `24.0`. -/
theorem c9_witness :
    lookup [("project", Value.entity "Project" 1), ("code", Value.str "c9"),
      ("description", Value.str "d9"), ("entity", Value.entity "Shot" 2),
      ("sg_task", Value.entity "Task" 3), ("sg_path_to_frames", Value.str "p9"),
      ("sg_department", Value.str "Flame"),
      ("sg_uploaded_movie_frame_rate", Value.float 24),
      ("sg_frames_aspect_ratio", Value.float 2),
      ("sg_movie_aspect_ratio", Value.float 2)] "sg_uploaded_movie_frame_rate" =
      some (Value.float 24) :=
  ((c9_fps_rate ctx0 (.str "c9") (.str "d9") (.str "p9")
    [("fps", Value.float 24), ("aspectRatio", Value.int 2)] (.str "r.exr")).1 _ rfl).2
    24 rfl rfl

/-! ### Characterization of the frame-range scanner -/

theorem takeWhile_append_all (p : Char → Bool) (d suf : List Char)
    (hd : ∀ c ∈ d, p c = true) (hs : ∀ c r, suf = c :: r → p c = false) :
    (d ++ suf).takeWhile p = d ∧ (d ++ suf).dropWhile p = suf := by
  induction d with
  | nil =>
    simp only [List.nil_append]
    cases suf with
    | nil => exact ⟨rfl, rfl⟩
    | cons c r =>
      have hc := hs c r rfl
      rw [List.takeWhile_cons, List.dropWhile_cons]
      simp [hc]
  | cons a d ih =>
    have ha := hd a (by simp)
    have ih2 := ih (fun c hc => hd c (by simp [hc]))
    rw [List.cons_append, List.takeWhile_cons, List.dropWhile_cons]
    simp [ha, ih2.1, ih2.2]

theorem matchAt_sound (cs : List Char) (t : String) (h : matchAt cs = some t) :
    ∃ d1 d2 rest, d1 ≠ [] ∧ d2 ≠ [] ∧ (∀ c ∈ d1, c.isDigit = true) ∧
      (∀ c ∈ d2, c.isDigit = true) ∧
      cs = '[' :: (d1 ++ '-' :: (d2 ++ ']' :: '.' :: rest)) ∧
      t = String.mk ('[' :: (d1 ++ '-' :: (d2 ++ [']']))) := by
  cases cs with
  | nil => simp [matchAt] at h
  | cons c0 rest =>
    by_cases hc0 : c0 = '['
    · subst hc0
      by_cases hd1 : (rest.takeWhile Char.isDigit).isEmpty
      · simp [matchAt, hd1] at h
      · cases hr1 : rest.dropWhile Char.isDigit with
        | nil => simp [matchAt, hd1, hr1] at h
        | cons c1 r2 =>
          by_cases hc1 : c1 = '-'
          · subst hc1
            by_cases hd2 : (r2.takeWhile Char.isDigit).isEmpty
            · simp [matchAt, hd1, hr1, hd2] at h
            · cases hr3 : r2.dropWhile Char.isDigit with
              | nil => simp [matchAt, hd1, hr1, hd2, hr3] at h
              | cons c2 r4 =>
                by_cases hc2 : c2 = ']'
                · subst hc2
                  cases r4 with
                  | nil => simp [matchAt, hd1, hr1, hd2, hr3] at h
                  | cons c3 r5 =>
                    by_cases hc3 : c3 = '.'
                    · subst hc3
                      have ht : t = String.mk ('[' :: (rest.takeWhile Char.isDigit ++
                          '-' :: (r2.takeWhile Char.isDigit ++ [']']))) := by
                        have h2 := h
                        simp [matchAt, hd1, hr1, hd2, hr3] at h2
                        exact h2.symm
                      refine ⟨rest.takeWhile Char.isDigit, r2.takeWhile Char.isDigit, r5,
                        ?_, ?_, ?_, ?_, ?_, ht⟩
                      · intro e
                        exact hd1 (by simp [e])
                      · intro e
                        exact hd2 (by simp [e])
                      · intro c hc
                        exact List.mem_takeWhile_imp hc
                      · intro c hc
                        exact List.mem_takeWhile_imp hc
                      · have e1 : rest = rest.takeWhile Char.isDigit ++ ('-' :: r2) := by
                          conv_lhs =>
                            rw [← List.takeWhile_append_dropWhile Char.isDigit rest]
                          rw [hr1]
                        have e2 : r2 = r2.takeWhile Char.isDigit ++ (']' :: '.' :: r5) := by
                          conv_lhs =>
                            rw [← List.takeWhile_append_dropWhile Char.isDigit r2]
                          rw [hr3]
                        conv_lhs => rw [e1, e2]
                    · simp [matchAt, hd1, hr1, hd2, hr3, hc3] at h
                · simp [matchAt, hd1, hr1, hd2, hr3, hc2] at h
          · simp [matchAt, hd1, hr1, hc1] at h
    · simp [matchAt, hc0] at h

theorem matchAt_complete (d1 d2 rest : List Char)
    (h1 : d1 ≠ []) (h2 : d2 ≠ []) (h3 : ∀ c ∈ d1, c.isDigit = true)
    (h4 : ∀ c ∈ d2, c.isDigit = true) :
    matchAt ('[' :: (d1 ++ '-' :: (d2 ++ ']' :: '.' :: rest))) =
      some (String.mk ('[' :: (d1 ++ '-' :: (d2 ++ [']'])))) := by
  have t1 := takeWhile_append_all Char.isDigit d1 ('-' :: (d2 ++ ']' :: '.' :: rest)) h3
    (by
      intro c r he
      injection he with e1 _
      rw [← e1]
      decide)
  have t2 := takeWhile_append_all Char.isDigit d2 (']' :: '.' :: rest) h4
    (by
      intro c r he
      injection he with e1 _
      rw [← e1]
      decide)
  simp only [matchAt, t1.1, t1.2, t2.1, t2.2]
  simp [h1, h2]

theorem searchFrameToken_iff (cs : List Char) (t : String) :
    searchFrameToken cs = some t ↔
      ∃ i, matchAt (cs.drop i) = some t ∧
        ∀ j, j < i → matchAt (cs.drop j) = Option.none := by
  induction cs with
  | nil =>
    constructor
    · intro h
      simp [searchFrameToken] at h
    · rintro ⟨i, hi, _⟩
      rw [List.drop_nil] at hi
      simp [matchAt] at hi
  | cons c rest ih =>
    cases hm : matchAt (c :: rest) with
    | some t2 =>
      constructor
      · intro h
        simp only [searchFrameToken, hm] at h
        exact ⟨0, by rw [List.drop_zero, hm, h], by omega⟩
      · rintro ⟨i, hi, hmin⟩
        cases i with
        | zero =>
          rw [List.drop_zero] at hi
          simp only [searchFrameToken, hm]
          rw [hm] at hi
          exact hi
        | succ j =>
          have h0 := hmin 0 (Nat.succ_pos j)
          rw [List.drop_zero, hm] at h0
          cases h0
    | none =>
      have hstep : searchFrameToken (c :: rest) = searchFrameToken rest := by
        simp [searchFrameToken, hm]
      rw [hstep, ih]
      constructor
      · rintro ⟨i, hi, hmin⟩
        refine ⟨i + 1, by simpa [List.drop_succ_cons] using hi, ?_⟩
        intro j hj
        cases j with
        | zero => simpa using hm
        | succ j2 =>
          rw [List.drop_succ_cons]
          exact hmin j2 (by omega)
      · rintro ⟨i, hi, hmin⟩
        cases i with
        | zero =>
          rw [List.drop_zero, hm] at hi
          cases hi
        | succ j =>
          refine ⟨j, by simpa [List.drop_succ_cons] using hi, ?_⟩
          intro j2 hj2
          have := hmin (j2 + 1) (by omega)
          simpa [List.drop_succ_cons] using this

theorem stripBrackets_token (d1 d2 : List Char) :
    stripBrackets (String.mk ('[' :: (d1 ++ '-' :: (d2 ++ [']'])))) =
      String.mk (d1 ++ '-' :: d2) := by
  unfold stripBrackets
  congr 1
  rw [show (String.mk ('[' :: (d1 ++ '-' :: (d2 ++ [']'])))).toList =
      '[' :: (d1 ++ '-' :: (d2 ++ [']'])) from rfl]
  rw [List.drop_one, List.tail_cons]
  rw [show d1 ++ '-' :: (d2 ++ [']']) = (d1 ++ '-' :: d2) ++ [']'] by simp]
  exact List.dropLast_concat

theorem buildVerData_empty_ai (ctx : Context) (n d p : Value) (fp : String) :
    ∃ vd, buildVerData ctx n d p [] (.str fp) = .ok vd := by
  have e1 : fpsStep [] (verBase ctx n d p) = .ok (verBase ctx n d p) := rfl
  have e2 : aspectStep [] (verBase ctx n d p) = .ok (verBase ctx n d p) := rfl
  cases hs : searchFrameToken fp.toList with
  | some tok =>
    refine ⟨setKey (verBase ctx n d p) "frame_range" (.str (stripBrackets tok)), ?_⟩
    simp only [buildVerData, e1, e2, rangeStep, hs]
    exact sourceStep_skip _ _ (by simp [lookup])
  | none =>
    refine ⟨verBase ctx n d p, ?_⟩
    simp only [buildVerData, e1, e2, rangeStep, hs]
    exact sourceStep_skip _ _ (by simp [lookup])

/-- Claim C4: the builder stores under `frame_range` exactly the result
of the left-to-right scan of `filePath`, with the brackets stripped;
`searchFrameToken` is the leftmost anchored match, an anchored match is
precisely a token `[digits-digits]` followed by a dot, stripping removes
the brackets, and a path with no token leaves the key absent without
raising (shown with an otherwise-empty asset info, so no other block
interferes). -/
theorem c4_frame_range :
    (∀ (ctx : Context) (n d p : Value) (ai : List (String × Value)) (fp : String)
       (vd : List (String × Value)),
       buildVerData ctx n d p ai (.str fp) = .ok vd →
       lookup vd "frame_range" =
         (searchFrameToken fp.toList).map (fun tok => Value.str (stripBrackets tok)))
    ∧ (∀ (cs : List Char) (t : String), searchFrameToken cs = some t ↔
        ∃ i, matchAt (cs.drop i) = some t ∧
          ∀ j, j < i → matchAt (cs.drop j) = Option.none)
    ∧ (∀ (cs : List Char) (t : String), matchAt cs = some t ↔
        ∃ d1 d2 rest, d1 ≠ [] ∧ d2 ≠ [] ∧ (∀ c ∈ d1, c.isDigit = true) ∧
          (∀ c ∈ d2, c.isDigit = true) ∧
          cs = '[' :: (d1 ++ '-' :: (d2 ++ ']' :: '.' :: rest)) ∧
          t = String.mk ('[' :: (d1 ++ '-' :: (d2 ++ [']']))))
    ∧ (∀ d1 d2 : List Char,
        stripBrackets (String.mk ('[' :: (d1 ++ '-' :: (d2 ++ [']'])))) =
          String.mk (d1 ++ '-' :: d2))
    ∧ (∀ (ctx : Context) (n d p : Value) (fp : String),
        ∃ vd, buildVerData ctx n d p [] (.str fp) = .ok vd) := by
  refine ⟨?_, searchFrameToken_iff, ?_, stripBrackets_token, buildVerData_empty_ai⟩
  · intro ctx n d p ai fp vd h
    obtain ⟨v1, v2, v3, h1, h2, h3, h4⟩ := buildVerData_ok_inv _ _ _ _ _ _ _ h
    have h0 : lookup v2 "frame_range" = Option.none := by
      rw [aspectStep_ok_lookup _ _ _ _ h2 (by decide) (by decide),
          fpsStep_ok_lookup _ _ _ _ h1 (by decide), verBase_lookup_frame_range]
    rw [sourceStep_ok_lookup _ _ _ _ h4 (by decide) (by decide) (by decide)]
    exact rangeStep_result _ _ _ h0 h3
  · intro cs t
    constructor
    · exact matchAt_sound cs t
    · rintro ⟨d1, d2, rest, hn1, hn2, hd1, hd2, hcs, ht⟩
      subst hcs
      subst ht
      exact matchAt_complete d1 d2 rest hn1 hn2 hd1 hd2

/-- Claim C4, witness at `filePath = "shot010.[1001-1050].exr"`: the
stored `frame_range` is `"1001-1050"`. -/
theorem c4_witness :
    lookup [("project", Value.entity "Project" 1), ("code", Value.str "c4"),
      ("description", Value.str "d4"), ("entity", Value.entity "Shot" 2),
      ("sg_task", Value.entity "Task" 3), ("sg_path_to_frames", Value.str "p4"),
      ("sg_department", Value.str "Flame"),
      ("frame_range", Value.str "1001-1050")] "frame_range" =
      some (Value.str "1001-1050") :=
  c4_frame_range.1 ctx0 (.str "c4") (.str "d4") (.str "p4") []
    "shot010.[1001-1050].exr" _ rfl

/-! ### Claims about the job chain -/

/-- Claim C6: `finalize` on an item whose property bag holds no
`quicktime_job` descriptor is a no-op — it returns `None` and leaves
the world (job queue, record store) untouched. -/
theorem c6_finalize_noop (cfg : EngineCfg) (item : Item) (w : World)
    (h : lookup item.properties "quicktime_job" = Option.none) :
    finalize cfg item w = (.ok Option.none, w) := by
  have hd : dictGet item.properties "quicktime_job" .none = .none := by
    rw [dictGet, h]
  simp [finalize, hd, truthy]

/-- A concrete item that never went through `publish`. -/
def itemNoJob : Item := ⟨.str "cB", .str "dB", ctx0, []⟩

/-- Claim C6, witness: a concrete skipped item yields no job and an
unchanged world. -/
theorem c6_witness :
    finalize cfg0 itemNoJob ⟨0, [], []⟩ = (.ok Option.none, ⟨0, [], []⟩) :=
  c6_finalize_noop cfg0 itemNoJob ⟨0, [], []⟩ rfl

/-- Claim C7: the descriptor returned by `generate_quicktime` carries as
`dependencies` exactly the job id returned by the transcode call, as
`path` the resolved destination returned by the transcode call, as
`target_entities` the given target record list, and as
`files_to_delete` the temp files returned by the transcode call. -/
theorem c7_descriptor (cfg : EngineCfg) (src : Value) (dst dn : String)
    (tgts : List Value) (ai : List (String × Value)) (deps : Value) (w : World) :
    lookup (generate_quicktime cfg src dst dn tgts ai deps w).1 "dependencies" =
      some (.int ((transcode cfg src dst (splitExt dst).2 dn "Create Shotgun Local Movie"
        cfg.presetPath ai deps w).1.2.1 : Int)) ∧
    lookup (generate_quicktime cfg src dst dn tgts ai deps w).1 "path" =
      some (.str (transcode cfg src dst (splitExt dst).2 dn "Create Shotgun Local Movie"
        cfg.presetPath ai deps w).1.1) ∧
    lookup (generate_quicktime cfg src dst dn tgts ai deps w).1 "target_entities" =
      some (.list tgts) ∧
    lookup (generate_quicktime cfg src dst dn tgts ai deps w).1 "files_to_delete" =
      some (.list (((transcode cfg src dst (splitExt dst).2 dn "Create Shotgun Local Movie"
        cfg.presetPath ai deps w).1.2.2).map Value.str)) :=
  ⟨rfl, rfl, rfl, rfl⟩

/-! ### Publish inversion -/

theorem generate_quicktime_eq (cfg : EngineCfg) (src : Value) (dst dn : String)
    (tgts : List Value) (ai : List (String × Value)) (deps : Value) (w : World) :
    generate_quicktime cfg src dst dn tgts ai deps w =
      ([("display_name", .str dn), ("dependencies", .int (w.nextJobId : Int)),
        ("target_entities", .list tgts), ("path", .str (cfg.resolveDst dst)),
        ("files_to_delete", .list (cfg.tmpFiles.map Value.str))],
       { nextJobId := w.nextJobId + 2,
         jobs := w.jobs ++
           [⟨w.nextJobId, dn, "Create Shotgun Local Movie", deps, "", "transcode",
             [("src_path", src), ("dst_path", .str dst)]⟩,
            ⟨w.nextJobId + 1, dn ++ " - Updating Shotgun Path to movie",
             "Uploading Shotgun Path to movie to " ++ cfg.resolveDst dst,
             .int (w.nextJobId : Int), "backburner_hooks", "update_path_to_movie",
             [("targets", .list tgts), ("path", .str (cfg.resolveDst dst)),
              ("files_to_delete", .list (cfg.tmpFiles.map Value.str))]⟩],
         creates := w.creates }) := by
  simp [generate_quicktime, transcode, createJob]

theorem publish_ok_inv (cfg : EngineCfg) (item : Item) (w : World) (item2 : Item)
    (w2 : World) (h : publish cfg item w = (.ok item2, w2)) :
    ∃ (ai ver_data : List (String × Value)) (pathS : String) (version : Value)
      (w1 : World) (qj : List (String × Value)),
      getAssetInfo item.properties = .ok ai ∧
      dictGet item.properties "path" .none = .str pathS ∧
      buildVerData item.context item.name item.description (.str pathS) ai
        (dictGet item.properties "file_path" (.str pathS)) = .ok ver_data ∧
      sgCreate "Version" ver_data w = (version, w1) ∧
      generate_quicktime cfg (dictGet item.properties "file_path" (.str pathS))
        (joinPath (splitPath pathS).1 (beforeFirstDot (splitPath pathS).2 ++ ".mov"))
        (beforeFirstDot (splitPath pathS).2 ++ ".mov") [version] ai
        (dictGet (setKey item.properties "Version" version) "backgroundJobId" .none)
        w1 = (qj, w2) ∧
      item2.properties = setKey (setKey (setKey (setKey item.properties "Version" version)
        "quicktime_name" (.str (beforeFirstDot (splitPath pathS).2 ++ ".mov")))
        "quicktime_path" (.str (joinPath (splitPath pathS).1
          (beforeFirstDot (splitPath pathS).2 ++ ".mov"))))
        "quicktime_job" (.dict qj) := by
  simp only [publish] at h
  split at h
  case h_1 => simp [Prod.ext_iff] at h
  case h_2 ai hA =>
    split at h
    case h_1 => simp [Prod.ext_iff] at h
    case h_2 ver_data hB =>
      split at h
      case h_2 => simp [Prod.ext_iff] at h
      case h_1 pathS hP =>
        rw [Prod.mk.injEq] at h
        obtain ⟨hi, hw⟩ := h
        rw [hP] at hB
        rw [hP] at hi hw
        refine ⟨ai, ver_data, pathS, (sgCreate "Version" ver_data w).1,
          (sgCreate "Version" ver_data w).2,
          (generate_quicktime cfg (dictGet item.properties "file_path" (.str pathS))
            (joinPath (splitPath pathS).1 (beforeFirstDot (splitPath pathS).2 ++ ".mov"))
            (beforeFirstDot (splitPath pathS).2 ++ ".mov")
            [(sgCreate "Version" ver_data w).1] ai
            (dictGet (setKey item.properties "Version" (sgCreate "Version" ver_data w).1)
              "backgroundJobId" Value.none)
            (sgCreate "Version" ver_data w).2).1,
          hA, hP, hB, rfl, ?_, ?_⟩
        · rw [← hw]
        · rw [← Except.ok.inj hi]

theorem finalize_dict (cfg : EngineCfg) (item : Item) (w : World)
    (d : List (String × Value))
    (hl : dictGet item.properties "quicktime_job" Value.none = .dict d)
    (htr : truthy (.dict d) = true) :
    finalize cfg item w = (.ok (some (upload_quicktime_job cfg d w).1),
      (upload_quicktime_job cfg d w).2) := by
  simp only [finalize, hl, htr, if_true]

/-- Claim C1 (amended): a successful `publish` followed by `finalize`
issues exactly three job submissions and one record creation, and job 2
and job 3 both declare job 1 (the transcode job) as their dependency —
the chain is a fan-out from job 1, not the strictly linear chain the
claim states. -/
theorem c1_chain (cfg : EngineCfg) (item : Item) (w : World) (item2 : Item)
    (w2 : World) (h : publish cfg item w = (.ok item2, w2)) :
    ∃ (jid : Nat) (w3 : World) (j1 j2 j3 : JobReq),
      finalize cfg item2 w2 = (.ok (some jid), w3) ∧
      w3.creates.length = w.creates.length + 1 ∧
      w3.jobs = w.jobs ++ [j1, j2, j3] ∧
      j2.dependencies = .int (j1.id : Int) ∧
      j3.dependencies = .int (j1.id : Int) := by
  obtain ⟨ai, ver_data, pathS, version, w1, qj, hA, hP, hB, hsg, hgq, hprops⟩ :=
    publish_ok_inv cfg item w item2 w2 h
  have hw1 : w1 = (sgCreate "Version" ver_data w).2 := (congrArg Prod.snd hsg).symm
  rw [generate_quicktime_eq] at hgq
  have hqj : qj = [("display_name",
        Value.str (beforeFirstDot (splitPath pathS).2 ++ ".mov")),
      ("dependencies", Value.int (w1.nextJobId : Int)),
      ("target_entities", Value.list [version]),
      ("path", Value.str (cfg.resolveDst (joinPath (splitPath pathS).1
        (beforeFirstDot (splitPath pathS).2 ++ ".mov")))),
      ("files_to_delete", Value.list (cfg.tmpFiles.map Value.str))] :=
    (congrArg Prod.fst hgq).symm
  have hw2 : w2 =
      ({ nextJobId := w1.nextJobId + 2,
         jobs := w1.jobs ++
           [⟨w1.nextJobId, beforeFirstDot (splitPath pathS).2 ++ ".mov",
             "Create Shotgun Local Movie",
             dictGet (setKey item.properties "Version" version) "backgroundJobId" Value.none,
             "", "transcode",
             [("src_path", dictGet item.properties "file_path" (.str pathS)),
              ("dst_path", Value.str (joinPath (splitPath pathS).1
                (beforeFirstDot (splitPath pathS).2 ++ ".mov")))]⟩,
            ⟨w1.nextJobId + 1,
             (beforeFirstDot (splitPath pathS).2 ++ ".mov") ++ " - Updating Shotgun Path to movie",
             "Uploading Shotgun Path to movie to " ++ cfg.resolveDst (joinPath (splitPath pathS).1
               (beforeFirstDot (splitPath pathS).2 ++ ".mov")),
             Value.int (w1.nextJobId : Int), "backburner_hooks", "update_path_to_movie",
             [("targets", Value.list [version]),
              ("path", Value.str (cfg.resolveDst (joinPath (splitPath pathS).1
                (beforeFirstDot (splitPath pathS).2 ++ ".mov")))),
              ("files_to_delete", Value.list (cfg.tmpFiles.map Value.str))]⟩],
         creates := w1.creates } : World) := (congrArg Prod.snd hgq).symm
  have hlook : dictGet item2.properties "quicktime_job" Value.none = .dict qj := by
    rw [hprops, dictGet, lookup_setKey_self]
  have htr : truthy (.dict qj) = true := by rw [hqj]; rfl
  have hdep : dictGet qj "dependencies" Value.none = Value.int (w1.nextJobId : Int) := by
    rw [hqj]; rfl
  refine ⟨(upload_quicktime_job cfg qj w2).1, (upload_quicktime_job cfg qj w2).2,
    ⟨w1.nextJobId, beforeFirstDot (splitPath pathS).2 ++ ".mov",
      "Create Shotgun Local Movie",
      dictGet (setKey item.properties "Version" version) "backgroundJobId" Value.none,
      "", "transcode",
      [("src_path", dictGet item.properties "file_path" (.str pathS)),
       ("dst_path", Value.str (joinPath (splitPath pathS).1
         (beforeFirstDot (splitPath pathS).2 ++ ".mov")))]⟩,
    ⟨w1.nextJobId + 1,
      (beforeFirstDot (splitPath pathS).2 ++ ".mov") ++ " - Updating Shotgun Path to movie",
      "Uploading Shotgun Path to movie to " ++ cfg.resolveDst (joinPath (splitPath pathS).1
        (beforeFirstDot (splitPath pathS).2 ++ ".mov")),
      Value.int (w1.nextJobId : Int), "backburner_hooks", "update_path_to_movie",
      [("targets", Value.list [version]),
       ("path", Value.str (cfg.resolveDst (joinPath (splitPath pathS).1
         (beforeFirstDot (splitPath pathS).2 ++ ".mov")))),
       ("files_to_delete", Value.list (cfg.tmpFiles.map Value.str))]⟩,
    ⟨w2.nextJobId,
      cfg.sanitize (dictGet qj "display_name" .none)
        (" - " ++ "Move and Upload Flame Quicktime"),
      "Move and Upload Flame Quicktime" ++ " for " ++ pyStr (dictGet qj "display_name" .none)
        ++ "\n " ++ pyStr (dictGet qj "path" .none),
      dictGet qj "dependencies" .none, "backburner_hooks",
      "copy_from_temp_and_upload_to_shotgun",
      [("targets", dictGet qj "target_entities" .none),
       ("path", dictGet qj "path" .none),
       ("field_name", Value.str "sg_uploaded_movie"),
       ("display_name", dictGet qj "display_name" .none),
       ("files_to_delete", dictGet qj "files_to_delete" .none)]⟩,
    finalize_dict cfg item2 w2 qj hlook htr, ?_, ?_, ?_, ?_⟩
  · show w2.creates.length = w.creates.length + 1
    rw [show w2.creates = w1.creates from by rw [hw2],
        show w1.creates = w.creates ++ [("Version", ver_data)] from by rw [hw1]; rfl]
    simp
  · show w2.jobs ++ [_] = w.jobs ++ _
    rw [show w2.jobs = w1.jobs ++ [_, _] from by rw [hw2],
        show w1.jobs = w.jobs from by rw [hw1]; rfl]
    simp [List.append_assoc]
  · rfl
  · show dictGet qj "dependencies" .none = _
    rw [hdep]

/-- A concrete item with a plain movie path, publishable end to end. -/
def itemA : Item := ⟨.str "clipA", .str "descA", ctx0, [("path", .str "fold/clipA.mov")]⟩

/-- The concrete publish run on `itemA`. -/
def pubA : Except PyErr Item × World := publish cfg0 itemA ⟨0, [], []⟩

/-- The item annotated by the concrete publish run. -/
def pubAItem : Item :=
  match pubA.1 with
  | .ok it => it
  | .error _ => itemA

/-- The concrete finalize run after `pubA`. -/
def finA : Except PyErr (Option Nat) × World := finalize cfg0 pubAItem pubA.2

/-- Claim C1, counterexample: in the concrete run the three submitted
jobs have ids 0, 1, 2 with dependencies None, job 0 and job 0 — the
third job depends on job 1 (id 0, the transcode job), not on job 2
(id 1), so the declared chain is not strictly linear. -/
theorem c1_counterexample :
    finA.2.jobs.map (fun j => (j.id, j.dependencies)) =
      [(0, Value.none), (1, Value.int 0), (2, Value.int 0)] ∧
    Value.int 0 ≠ Value.int 1 := by
  refine ⟨rfl, ?_⟩
  intro h
  exact absurd (Value.int.inj h) (by decide)

/-- Claim C1 (amended), witness: the concrete run creates exactly one
record and submits exactly three jobs. -/
theorem c1_witness :
    (finalize cfg0 pubAItem pubA.2).2.creates.length = 1 ∧
    (finalize cfg0 pubAItem pubA.2).2.jobs.length = 3 := by
  obtain ⟨jid, w3, j1, j2, j3, hfin, hc, hj, h2d, h3d⟩ :=
    c1_chain cfg0 itemA ⟨0, [], []⟩ pubAItem pubA.2 rfl
  rw [hfin]
  exact ⟨hc, by rw [hj]; rfl⟩

/-! ### Claim C8: derivation of the quicktime name and paths -/

/-- Follows the spec wording for the quicktime deliverable name (claim
C8): take the basename of `path`, strip its extension (the suffix from
the last dot, `os.path.splitext` semantics) and append `".mov"`.  The
source instead truncates the basename at its FIRST dot
(`basename.split(".")[0]`), so the two differ on multi-dot basenames. -/
def specQuicktimeName (path : String) : String :=
  (splitExt (splitPath path).2).1 ++ ".mov"

/-- A concrete item whose path has a multi-dot basename (a frame
number), the normal case for sequences. -/
def itemE : Item := ⟨.str "shotE", .str "descE", ctx0, [("path", .str "seq/shot.0100.exr")]⟩

/-- The concrete publish run on `itemE`. -/
def pubE : Except PyErr Item × World := publish cfg0 itemE ⟨0, [], []⟩

/-- The item annotated by that run. -/
def pubEItem : Item :=
  match pubE.1 with
  | .ok it => it
  | .error _ => itemE

/-- Claim C8, counterexample: for the path `"seq/shot.0100.exr"` the
code stores the deliverable name `"shot.mov"` (prefix before the first
dot), while stripping the extension from the basename as the claim
states would give `"shot.0100.mov"`. -/
theorem c8_counterexample :
    lookup pubEItem.properties "quicktime_name" = some (Value.str "shot.mov") ∧
    specQuicktimeName "seq/shot.0100.exr" = "shot.0100.mov" ∧
    ("shot.mov" : String) ≠ "shot.0100.mov" :=
  ⟨rfl, rfl, by decide⟩

/-- Claim C8 (amended): `publish` derives the quicktime name by taking
the basename of `path` and truncating it at its first dot (not merely
stripping the extension), appending `".mov"`; the destination path
joins that name onto the directory of `path`; and the transcode source
is the item `file_path` property, falling back to `path` when absent. -/
theorem c8_quicktime_derivation (cfg : EngineCfg) (item : Item) (w : World)
    (item2 : Item) (w2 : World) (h : publish cfg item w = (.ok item2, w2)) :
    ∃ pathS : String,
      dictGet item.properties "path" Value.none = .str pathS ∧
      lookup item2.properties "quicktime_name" =
        some (.str (beforeFirstDot (splitPath pathS).2 ++ ".mov")) ∧
      lookup item2.properties "quicktime_path" =
        some (.str (joinPath (splitPath pathS).1
          (beforeFirstDot (splitPath pathS).2 ++ ".mov"))) ∧
      ∃ j1 j2 : JobReq, w2.jobs = w.jobs ++ [j1, j2] ∧
        lookup j1.args "src_path" =
          some (dictGet item.properties "file_path" (.str pathS)) := by
  obtain ⟨ai, ver_data, pathS, version, w1, qj, hA, hP, hB, hsg, hgq, hprops⟩ :=
    publish_ok_inv cfg item w item2 w2 h
  have hw1 : w1 = (sgCreate "Version" ver_data w).2 := (congrArg Prod.snd hsg).symm
  rw [generate_quicktime_eq] at hgq
  refine ⟨pathS, hP, ?_, ?_,
    ⟨w1.nextJobId, beforeFirstDot (splitPath pathS).2 ++ ".mov",
      "Create Shotgun Local Movie",
      dictGet (setKey item.properties "Version" version) "backgroundJobId" Value.none,
      "", "transcode",
      [("src_path", dictGet item.properties "file_path" (.str pathS)),
       ("dst_path", Value.str (joinPath (splitPath pathS).1
         (beforeFirstDot (splitPath pathS).2 ++ ".mov")))]⟩,
    ⟨w1.nextJobId + 1,
      (beforeFirstDot (splitPath pathS).2 ++ ".mov") ++ " - Updating Shotgun Path to movie",
      "Uploading Shotgun Path to movie to " ++ cfg.resolveDst (joinPath (splitPath pathS).1
        (beforeFirstDot (splitPath pathS).2 ++ ".mov")),
      Value.int (w1.nextJobId : Int), "backburner_hooks", "update_path_to_movie",
      [("targets", Value.list [version]),
       ("path", Value.str (cfg.resolveDst (joinPath (splitPath pathS).1
         (beforeFirstDot (splitPath pathS).2 ++ ".mov")))),
       ("files_to_delete", Value.list (cfg.tmpFiles.map Value.str))]⟩,
    ?_, rfl⟩
  · rw [hprops, lookup_setKey_ne _ _ _ _ (by decide), lookup_setKey_ne _ _ _ _ (by decide),
      lookup_setKey_self]
  · rw [hprops, lookup_setKey_ne _ _ _ _ (by decide), lookup_setKey_self]
  · have hjobs := congrArg (fun p => p.2.jobs) hgq
    rw [show w2.jobs = w1.jobs ++ [_, _] from hjobs.symm,
        show w1.jobs = w.jobs from by rw [hw1]; rfl]

/-- Claim C8 (amended), witness: the concrete run on
`"seq/shot.0100.exr"` stores the name `"shot.mov"` and the destination
`"seq/shot.mov"` next to the source. -/
theorem c8_witness :
    lookup pubEItem.properties "quicktime_name" = some (Value.str "shot.mov") ∧
    lookup pubEItem.properties "quicktime_path" = some (Value.str "seq/shot.mov") := by
  obtain ⟨pathS, hP, h1, h2, j1, j2, hjobs, hsrc⟩ :=
    c8_quicktime_derivation cfg0 itemE ⟨0, [], []⟩ pubEItem pubE.2 rfl
  have he : pathS = "seq/shot.0100.exr" := by
    have h3 : Value.str "seq/shot.0100.exr" = Value.str pathS :=
      (rfl : dictGet itemE.properties "path" Value.none =
        Value.str "seq/shot.0100.exr").symm.trans hP
    exact (Value.str.inj h3).symm
  subst he
  refine ⟨h1, ?_⟩
  rw [h2]
  rfl

/-! ### Claim C10: publish on an item with no path at all -/

/-- A concrete item with neither `path` nor `file_path`, but with an
asset info whose aspect coercion raises before the frame-range step. -/
def itemC : Item :=
  ⟨.str "cC", .str "dC", ctx0, [("assetInfo", Value.dict [("fps", Value.int 25)])]⟩

/-- Claim C10, counterexample: on an item with neither `path` nor
`file_path` whose asset info is `\x7bfps: 25\x7d`, `publish` raises the
`float(None)` `TypeError` of the aspect block — not a type error at the
frame-range parsing step — though still before any record creation or
job submission (the world is unchanged). -/
theorem c10_counterexample :
    lookup itemC.properties "path" = Option.none ∧
    lookup itemC.properties "file_path" = Option.none ∧
    publish cfg0 itemC ⟨0, [], []⟩ =
      (.error (.typeError "float() argument must be a string or a real number, not NoneType"),
       ⟨0, [], []⟩) ∧
    PyErr.typeError "float() argument must be a string or a real number, not NoneType" ≠
      PyErr.typeError "expected string or bytes-like object" :=
  ⟨rfl, rfl, rfl, by decide⟩

/-- Claim C10 (amended): on every item whose property bag has neither
`path` nor `file_path`, `publish` raises before the record creation —
the world is returned unchanged, so no Version is created and no job is
submitted; when the asset-info extraction and the fps and aspect blocks
succeed, the exception is precisely the frame-range `TypeError`
(`re.search` applied to `None`). -/
theorem c10_missing_path (cfg : EngineCfg) (item : Item) (w : World)
    (hp : lookup item.properties "path" = Option.none)
    (hf : lookup item.properties "file_path" = Option.none) :
    (∃ e, publish cfg item w = (.error e, w)) ∧
    (∀ ai v1 v2, getAssetInfo item.properties = .ok ai →
      fpsStep ai (verBase item.context item.name item.description Value.none) = .ok v1 →
      aspectStep ai v1 = .ok v2 →
      publish cfg item w =
        (.error (.typeError "expected string or bytes-like object"), w)) := by
  have hdp : dictGet item.properties "path" .none = .none := by rw [dictGet, hp]
  have hdf : dictGet item.properties "file_path" Value.none = .none := by rw [dictGet, hf]
  constructor
  · cases hA : getAssetInfo item.properties with
    | error e =>
      exact ⟨e, by simp only [publish, hdp, hdf, hA]⟩
    | ok ai =>
      obtain ⟨e, he⟩ :=
        buildVerData_none_file item.context item.name item.description Value.none ai
      exact ⟨e, by simp only [publish, hdp, hdf, hA, he]⟩
  · intro ai v1 v2 hA h1 h2
    have he : buildVerData item.context item.name item.description Value.none ai Value.none =
        .error (.typeError "expected string or bytes-like object") := by
      simp only [buildVerData, h1, h2]
      rfl
    simp only [publish, hdp, hdf, hA, he]

/-- A concrete item with an empty property bag. -/
def itemD : Item := ⟨.str "cD", .str "dD", ctx0, []⟩

/-- Claim C10 (amended), witness: on the empty-property item the
exception is the frame-range `TypeError` and the world is untouched. -/
theorem c10_witness :
    publish cfg0 itemD ⟨0, [], []⟩ =
      (.error (.typeError "expected string or bytes-like object"), ⟨0, [], []⟩) :=
  (c10_missing_path cfg0 itemD ⟨0, [], []⟩ rfl rfl).2 []
    (verBase ctx0 (.str "cD") (.str "dD") Value.none)
    (verBase ctx0 (.str "cD") (.str "dD") Value.none) rfl rfl rfl
